import Mathlib

/-!
Shallow embedding of the MACE operator-test harness
(mace/ops/ops_test_util.cc): the operator-definition builder
(OpDefBuilder), the process-wide device-context registry
(OpTestContext), and the execution harness (OpsTestNet) with its
Setup / Run / RunOp / RunNet / Sync operations.

External collaborators (Workspace::PreallocateOutputTensor,
NetBase::Init, NetBase::Run, the OpenCL command queue) are modelled as
status oracles indexed by call count; each call the harness makes to a
collaborator is also recorded in an event trace, so that claims about
"X is invoked / not invoked" become claims about the trace.
-/

set_option autoImplicit false

namespace MaceTest

/-- Subset of the mace DataType enum used by the harness. -/
inductive DataType where
  | DT_INVALID
  | DT_FLOAT
  | DT_UINT8
  | DT_HALF
  | DT_INT32
  deriving DecidableEq, Repr, Inhabited

/-- Device kinds the harness may be asked to target. -/
inductive DeviceType where
  | CPU
  | GPU
  deriving DecidableEq, Repr, Inhabited

/-- GPU tensor memory layouts (mace MemoryType). -/
inductive MemoryType where
  | CPU_BUFFER
  | GPU_BUFFER
  | GPU_IMAGE
  deriving DecidableEq, Repr, Inhabited

/-- mace MaceStatus codes: one success value, several failure values. -/
inductive MaceStatus where
  | MACE_SUCCESS
  | MACE_INVALID_ARGS
  | MACE_OUT_OF_RESOURCES
  | MACE_UNSUPPORTED
  | MACE_RUNTIME_ERROR
  deriving DecidableEq, Repr, Inhabited

/-- CPU affinity policies accepted by the CPUDevice constructor. -/
inductive CPUAffinityPolicy where
  | AFFINITY_NONE
  | AFFINITY_BIG_ONLY
  | AFFINITY_LITTLE_ONLY
  deriving DecidableEq, Repr, Inhabited

/-- GPU priority hints; the registry always constructs with PRIORITY_NORMAL. -/
inductive GPUPriorityHint where
  | PRIORITY_LOW
  | PRIORITY_NORMAL
  | PRIORITY_HIGH
  deriving DecidableEq, Repr, Inhabited

/-- A float value as the harness stores it: an opaque bit pattern.
The harness never computes with floats, it only copies them into
protobuf fields, so bit-pattern identity is the right notion. -/
structure FloatBits where
  bits : Nat
  deriving DecidableEq, Repr, Inhabited

/-- One protobuf Argument of an OperatorDef: a name plus the payload
fields the builder may set (set_i / set_f / set_s / add_ints /
add_floats). Each builder AddXxxArg call creates one Argument with
exactly one payload populated. -/
structure Argument where
  name : String := ""
  f : Option FloatBits := none
  i : Option Int := none
  s : Option String := none
  floats : List FloatBits := []
  ints : List Int := []
  deriving DecidableEq, Repr, Inhabited

/-- One declared output shape: an ordered list of dimension sizes. -/
structure OutputShapeDef where
  dims : List Int := []
  deriving DecidableEq, Repr, Inhabited

/-- The protobuf OperatorDef fields the builder populates. -/
structure OperatorDef where
  type : String := ""
  name : String := ""
  input : List String := []
  output : List String := []
  output_type : List DataType := []
  output_shape : List OutputShapeDef := []
  arg : List Argument := []
  deriving DecidableEq, Repr, Inhabited

/-- OpDefBuilder state: the OperatorDef accumulated so far. -/
structure OpDefBuilder where
  op_def_ : OperatorDef
  deriving DecidableEq, Repr, Inhabited

/-- OpDefBuilder constructor: set_type then set_name. -/
def mkOpDefBuilder (type : String) (name : String) : OpDefBuilder :=
  { op_def_ := { type := type, name := name } }

/-- OpDefBuilder::Input - append one input tensor name. -/
def OpDefBuilder.Input (b : OpDefBuilder) (input_name : String) : OpDefBuilder :=
  { b with op_def_ := { b.op_def_ with input := b.op_def_.input ++ [input_name] } }

/-- OpDefBuilder::Output - append one output tensor name. -/
def OpDefBuilder.Output (b : OpDefBuilder) (output_name : String) : OpDefBuilder :=
  { b with op_def_ := { b.op_def_ with output := b.op_def_.output ++ [output_name] } }

/-- OpDefBuilder::OutputType - append every element of the given list
of declared output data types. -/
def OpDefBuilder.OutputType (b : OpDefBuilder) (output_type : List DataType) : OpDefBuilder :=
  { b with op_def_ := { b.op_def_ with
      output_type := b.op_def_.output_type ++ output_type } }

/-- OpDefBuilder::OutputShape - append one declared output shape built
from the given dimension list. -/
def OpDefBuilder.OutputShape (b : OpDefBuilder) (output_shape : List Int) : OpDefBuilder :=
  { b with op_def_ := { b.op_def_ with
      output_shape := b.op_def_.output_shape ++ [{ dims := output_shape }] } }

/-- OpDefBuilder::AddIntArg - add one fresh Argument with name and i set. -/
def OpDefBuilder.AddIntArg (b : OpDefBuilder) (name : String) (value : Int) : OpDefBuilder :=
  { b with op_def_ := { b.op_def_ with
      arg := b.op_def_.arg ++ [{ name := name, i := some value }] } }

/-- OpDefBuilder::AddFloatArg - add one fresh Argument with name and f set. -/
def OpDefBuilder.AddFloatArg (b : OpDefBuilder) (name : String) (value : FloatBits) : OpDefBuilder :=
  { b with op_def_ := { b.op_def_ with
      arg := b.op_def_.arg ++ [{ name := name, f := some value }] } }

/-- OpDefBuilder::AddStringArg - add one fresh Argument with name and s set. -/
def OpDefBuilder.AddStringArg (b : OpDefBuilder) (name : String) (value : String) : OpDefBuilder :=
  { b with op_def_ := { b.op_def_ with
      arg := b.op_def_.arg ++ [{ name := name, s := some value }] } }

/-- OpDefBuilder::AddIntsArg - add one fresh Argument with name and the
ints list populated. -/
def OpDefBuilder.AddIntsArg (b : OpDefBuilder) (name : String) (values : List Int) : OpDefBuilder :=
  { b with op_def_ := { b.op_def_ with
      arg := b.op_def_.arg ++ [{ name := name, ints := values }] } }

/-- OpDefBuilder::AddFloatsArg - add one fresh Argument with name and
the floats list populated. -/
def OpDefBuilder.AddFloatsArg (b : OpDefBuilder) (name : String) (values : List FloatBits) : OpDefBuilder :=
  { b with op_def_ := { b.op_def_ with
      arg := b.op_def_.arg ++ [{ name := name, floats := values }] } }

/-- Result of OpDefBuilder::Finalize: either the fatal MACE_CHECK abort
(carrying its message, writing nothing), or the written OperatorDef. -/
inductive FinalizeResult where
  | fatal (msg : String)
  | ok (written : OperatorDef)
  deriving DecidableEq, Repr, Inhabited

/-- OpDefBuilder::Finalize - MACE_CHECK that the destination pointer is
non-null (fatal abort otherwise), then copy the accumulated def there. -/
def OpDefBuilder.Finalize (b : OpDefBuilder) (op_def : Option OperatorDef) : FinalizeResult :=
  match op_def with
  | none => FinalizeResult.fatal "input should not be null."
  | some _ => FinalizeResult.ok b.op_def_

/-- One builder mutation call, for reasoning about arbitrary call
sequences (everything between construction and Finalize). -/
inductive BuilderCall where
  | input (s : String)
  | output (s : String)
  | outputType (ts : List DataType)
  | outputShape (dims : List Int)
  | addIntArg (name : String) (v : Int)
  | addFloatArg (name : String) (v : FloatBits)
  | addStringArg (name : String) (v : String)
  | addIntsArg (name : String) (vs : List Int)
  | addFloatsArg (name : String) (vs : List FloatBits)
  deriving DecidableEq, Repr, Inhabited

/-- Dispatch one BuilderCall to the corresponding builder method. -/
def applyCall (b : OpDefBuilder) : BuilderCall → OpDefBuilder
  | BuilderCall.input s => b.Input s
  | BuilderCall.output s => b.Output s
  | BuilderCall.outputType ts => b.OutputType ts
  | BuilderCall.outputShape ds => b.OutputShape ds
  | BuilderCall.addIntArg n v => b.AddIntArg n v
  | BuilderCall.addFloatArg n v => b.AddFloatArg n v
  | BuilderCall.addStringArg n v => b.AddStringArg n v
  | BuilderCall.addIntsArg n vs => b.AddIntsArg n vs
  | BuilderCall.addFloatsArg n vs => b.AddFloatsArg n vs

/-- Construct a builder and run an arbitrary sequence of calls on it. -/
def buildFromCalls (type : String) (name : String) (calls : List BuilderCall) : OpDefBuilder :=
  calls.foldl applyCall (mkOpDefBuilder type name)

/-- Spec-side reading of a call sequence: the input names, in order. -/
def specInputs (calls : List BuilderCall) : List String :=
  calls.filterMap fun c =>
    match c with
    | BuilderCall.input s => some s
    | _ => none

/-- Spec-side reading of a call sequence: the output names, in order. -/
def specOutputs (calls : List BuilderCall) : List String :=
  calls.filterMap fun c =>
    match c with
    | BuilderCall.output s => some s
    | _ => none

/-- Spec-side reading of a call sequence: all declared output data
types, in order of declaration. -/
def specOutputTypes (calls : List BuilderCall) : List DataType :=
  calls.flatMap fun c =>
    match c with
    | BuilderCall.outputType ts => ts
    | _ => []

/-- Spec-side reading of a call sequence: the declared output shapes,
in order. -/
def specOutputShapes (calls : List BuilderCall) : List OutputShapeDef :=
  calls.filterMap fun c =>
    match c with
    | BuilderCall.outputShape ds => some { dims := ds }
    | _ => none

/-- Spec-side reading of a call sequence: the one Argument each
attribute-adding call creates, in call order, duplicates kept. -/
def specArgs (calls : List BuilderCall) : List Argument :=
  calls.filterMap fun c =>
    match c with
    | BuilderCall.addIntArg n v => some { name := n, i := some v }
    | BuilderCall.addFloatArg n v => some { name := n, f := some v }
    | BuilderCall.addStringArg n v => some { name := n, s := some v }
    | BuilderCall.addIntsArg n vs => some { name := n, ints := vs }
    | BuilderCall.addFloatsArg n vs => some { name := n, floats := vs }
    | _ => none

/-- A workspace tensor, reduced to the fields the harness reads:
shape and the weight flag. -/
structure Tensor where
  shape : List Int := []
  is_weight : Bool := false
  deriving DecidableEq, Repr, Inhabited

/-- The Workspace: named tensor storage, name-to-tensor association
list with unique keys. -/
abbrev Workspace := List (String × Tensor)

/-- Workspace::GetTensor - the tensor registered under the name, or
none (nullptr) when absent. -/
def Workspace.GetTensor (ws : Workspace) (name : String) : Option Tensor :=
  (ws.find? fun p => p.1 = name).map Prod.snd

/-- Workspace::RemoveTensor - erase any entry with the given name. -/
def Workspace.RemoveTensor (ws : Workspace) (name : String) : Workspace :=
  ws.filter fun p => p.1 ≠ name

/-- One NetDef input_info entry: name plus dims. -/
structure InputInfo where
  name : String := ""
  dims : List Int := []
  deriving DecidableEq, Repr, Inhabited

/-- One NetDef output_info entry: name plus resolved data type. -/
structure OutputInfo where
  name : String := ""
  data_type : DataType := DataType.DT_INVALID
  deriving DecidableEq, Repr, Inhabited

/-- The NetDef fields OpsTestNet::Setup populates. -/
structure NetDef where
  op : List OperatorDef := []
  input_info : List InputInfo := []
  output_info : List OutputInfo := []
  deriving DecidableEq, Repr, Inhabited

/-- static_cast of an int64 index_t dimension to a 32-bit int, as in
input_info->add_dims(static_cast of d). -/
def castInt32 (d : Int) : Int :=
  (d + 2 ^ 31).emod (2 ^ 32) - 2 ^ 31

/-- The input_info entries one operator contributes: for each input
name bound in the workspace to a non-weight tensor, its name and the
current shape of that tensor. -/
def inputInfosOf (ws : Workspace) (op : OperatorDef) : List InputInfo :=
  op.input.filterMap fun inp =>
    match ws.GetTensor inp with
    | some t => if t.is_weight then none else some { name := inp, dims := t.shape.map castInt32 }
    | none => none

/-- Body of the indexed output loop in Setup, at index i: remove the
workspace tensor named output(i), then append an output_info whose data
type is output_type(i) when the declared-type count equals the output
count, else DT_FLOAT. -/
def outputStep (op : OperatorDef) (acc : Workspace × List OutputInfo) (i : Nat) :
    Workspace × List OutputInfo :=
  let ws := acc.1.RemoveTensor (op.output.getD i "")
  let info : OutputInfo :=
    { name := op.output.getD i ""
      data_type :=
        if op.output_type.length = op.output.length then op.output_type.getD i DataType.DT_INVALID
        else DataType.DT_FLOAT }
  (ws, acc.2 ++ [info])

/-- The full output loop of Setup for one operator: fold outputStep
over the output indices. -/
def processOutputs (op : OperatorDef) (ws : Workspace) : Workspace × List OutputInfo :=
  (List.range op.output.length).foldl (outputStep op) (ws, [])

/-- One iteration of the Setup loop over the accumulated operator
definitions: copy the op into the NetDef, derive its input_info entries
from the current workspace, then run the output loop (removing output
tensors and appending output_info entries). -/
def setupStep (acc : NetDef × Workspace) (op : OperatorDef) : NetDef × Workspace :=
  let nd := acc.1
  let outs := processOutputs op acc.2
  ({ nd with
      op := nd.op ++ [op]
      input_info := nd.input_info ++ inputInfosOf acc.2 op
      output_info := nd.output_info ++ outs.2 },
   outs.1)

/-- The NetDef-building prefix of OpsTestNet::Setup: fold the per-op
step over the accumulated operator definitions, threading the
workspace. -/
def buildNetDef (op_defs : List OperatorDef) (ws : Workspace) : NetDef × Workspace :=
  op_defs.foldl setupStep ({}, ws)

/-- GPUContext, reduced to its construction argument: the storage path. -/
structure GPUContext where
  storage_path : String := ""
  deriving DecidableEq, Repr, Inhabited

/-- CPUDevice, reduced to its construction arguments. -/
structure CPUDevice where
  num_threads : Int := 0
  cpu_affinity_policy : CPUAffinityPolicy := CPUAffinityPolicy.AFFINITY_NONE
  use_gemmlowp : Bool := false
  deriving DecidableEq, Repr, Inhabited

/-- GPUDevice: built from the shared GPU context (tuner and cache
storage both come from it) with normal priority; its gpu_runtime holds
a settable active memory type. -/
structure GPUDevice where
  context : GPUContext := {}
  priority : GPUPriorityHint := GPUPriorityHint.PRIORITY_NORMAL
  active_mem_type : Option MemoryType := none
  deriving DecidableEq, Repr, Inhabited

/-- A device as returned by OpTestContext::GetDevice. -/
inductive Device where
  | cpu (d : CPUDevice)
  | gpu (d : GPUDevice)
  deriving DecidableEq, Repr, Inhabited

/-- GetStoragePathFromEnv: the MACE_INTERNAL_STORAGE_PATH environment
variable, or the empty string when unset. -/
def GetStoragePathFromEnv (envPath : Option String) : String :=
  match envPath with
  | none => ""
  | some p => p

/-- OpTestContext state: the shared GPU context, the permitted GPU
memory-type list, and the two constructed devices. -/
structure OpTestContext where
  gpu_context_ : GPUContext := {}
  opencl_mem_types_ : List MemoryType := []
  cpu_device : CPUDevice := {}
  gpu_device : GPUDevice := {}
  deriving DecidableEq, Repr, Inhabited

/-- The OpTestContext constructor: build the GPU context from the
environment-supplied storage path, start the permitted memory-type list
at GPU_IMAGE only, and construct one CPU device from the given
parameters and one GPU device from the shared context. -/
def mkOpTestContext (envPath : Option String) (num_threads : Int)
    (cpu_affinity_policy : CPUAffinityPolicy) (use_gemmlowp : Bool) : OpTestContext :=
  let ctx : GPUContext := { storage_path := GetStoragePathFromEnv envPath }
  { gpu_context_ := ctx
    opencl_mem_types_ := [MemoryType.GPU_IMAGE]
    cpu_device :=
      { num_threads := num_threads
        cpu_affinity_policy := cpu_affinity_policy
        use_gemmlowp := use_gemmlowp }
    gpu_device := { context := ctx, priority := GPUPriorityHint.PRIORITY_NORMAL } }

/-- The process-wide singleton cell behind OpTestContext::Get. -/
structure ProcessState where
  ctxInstance : Option OpTestContext := none
  deriving DecidableEq, Repr, Inhabited

/-- OpTestContext::Get - function-local static: construct the instance
from the given parameters on the first call, return the cached instance
(ignoring the parameters) on every later call. -/
def OpTestContext.Get (ps : ProcessState) (envPath : Option String) (num_threads : Int)
    (cpu_affinity_policy : CPUAffinityPolicy) (use_gemmlowp : Bool) :
    OpTestContext × ProcessState :=
  match ps.ctxInstance with
  | some c => (c, ps)
  | none =>
    let c := mkOpTestContext envPath num_threads cpu_affinity_policy use_gemmlowp
    (c, { ctxInstance := some c })

/-- OpTestContext::GetDevice - the cached device for the kind. -/
def OpTestContext.GetDevice (c : OpTestContext) : DeviceType → Device
  | DeviceType.CPU => Device.cpu c.cpu_device
  | DeviceType.GPU => Device.gpu c.gpu_device

/-- OpTestContext::opencl_mem_types - a copy of the permitted list. -/
def OpTestContext.opencl_mem_types (c : OpTestContext) : List MemoryType :=
  c.opencl_mem_types_

/-- OpTestContext::SetOCLBufferTestFlag - permit GPU_BUFFER only. -/
def OpTestContext.SetOCLBufferTestFlag (c : OpTestContext) : OpTestContext :=
  { c with opencl_mem_types_ := [MemoryType.GPU_BUFFER] }

/-- OpTestContext::SetOCLImageTestFlag - permit GPU_IMAGE only. -/
def OpTestContext.SetOCLImageTestFlag (c : OpTestContext) : OpTestContext :=
  { c with opencl_mem_types_ := [MemoryType.GPU_IMAGE] }

/-- OpTestContext::SetOCLImageAndBufferTestFlag - permit GPU_IMAGE then
GPU_BUFFER. -/
def OpTestContext.SetOCLImageAndBufferTestFlag (c : OpTestContext) : OpTestContext :=
  { c with opencl_mem_types_ := [MemoryType.GPU_IMAGE, MemoryType.GPU_BUFFER] }

/-- Status oracles for the external collaborators, indexed by how many
times the harness has called each one so far. Quantifying theorems over
Env covers every status sequence the collaborators could return. -/
structure Env where
  prealloc : Nat → MaceStatus
  netInit : Nat → MaceStatus
  netRun : Nat → MaceStatus

/-- Per-collaborator call counters. -/
structure Counters where
  p : Nat := 0
  i : Nat := 0
  r : Nat := 0
  deriving DecidableEq, Repr, Inhabited

/-- Events of the externally visible trace of one harness operation. -/
inductive Event where
  | prealloc (st : MaceStatus)
  | netInit (st : MaceStatus)
  | netRun (st : MaceStatus)
  | setMemType (t : MemoryType)
  | syncFinish
  deriving DecidableEq, Repr, Inhabited

/-- OpsTestNet state: the workspace, the accumulated operator
definitions, the current executor (none until first constructed), and
the device kind recorded by the last Setup or RunNet. -/
structure OpsTestNet where
  ws_ : Workspace := []
  op_defs_ : List OperatorDef := []
  net_ : Option NetDef := none
  device_type_ : Option DeviceType := none
  deriving DecidableEq, Repr, Inhabited

/-- OpsTestNet::Setup - build the NetDef from the accumulated operator
definitions (removing output tensors from the workspace as it goes),
construct the executor, preallocate output tensors (returning false on
failure without initializing the executor), then initialize the
executor, record the device kind, and return whether Init succeeded. -/
def OpsTestNet.Setup (env : Env) (s : OpsTestNet) (c : Counters) (device : DeviceType) :
    Bool × OpsTestNet × Counters × List Event :=
  let built := buildNetDef s.op_defs_ s.ws_
  let s1 : OpsTestNet := { s with ws_ := built.2, net_ := some built.1 }
  let pst := env.prealloc c.p
  let c1 : Counters := { c with p := c.p + 1 }
  if pst = MaceStatus.MACE_SUCCESS then
    let ist := env.netInit c1.i
    let c2 : Counters := { c1 with i := c1.i + 1 }
    let s2 : OpsTestNet := { s1 with device_type_ := some device }
    (decide (ist = MaceStatus.MACE_SUCCESS), s2, c2,
      [Event.prealloc pst, Event.netInit ist])
  else
    (false, s1, c1, [Event.prealloc pst])

/-- OpsTestNet::Sync - the events Sync emits: a command-queue finish
when an executor exists and the recorded device kind is GPU, nothing
otherwise. -/
def OpsTestNet.Sync (s : OpsTestNet) : List Event :=
  if s.net_.isSome ∧ s.device_type_ = some DeviceType.GPU then [Event.syncFinish] else []

/-- OpsTestNet::Run - fatal (none) when no executor exists; otherwise
invoke the executor run, propagate a non-success status immediately,
and on success Sync and return success. -/
def OpsTestNet.Run (env : Env) (s : OpsTestNet) (c : Counters) :
    Option (MaceStatus × OpsTestNet × Counters × List Event) :=
  match s.net_ with
  | none => none
  | some _ =>
    let rst := env.netRun c.r
    let c1 : Counters := { c with r := c.r + 1 }
    if rst = MaceStatus.MACE_SUCCESS then
      some (MaceStatus.MACE_SUCCESS, s, c1, [Event.netRun rst] ++ s.Sync)
    else
      some (rst, s, c1, [Event.netRun rst])

/-- The for-loop of OpsTestNet::RunOp on GPU: for each permitted memory
type in order, set it as the active GPU memory type, Setup for GPU
(result discarded), then Run, returning a non-success run status
immediately; success when the list is exhausted. -/
def runOpGpuLoop (env : Env) :
    List MemoryType → OpTestContext → OpsTestNet → Counters →
    Option (MaceStatus × OpTestContext × OpsTestNet × Counters × List Event)
  | [], ctx, s, c => some (MaceStatus.MACE_SUCCESS, ctx, s, c, [])
  | t :: rest, ctx, s, c =>
    let ctx1 : OpTestContext :=
      { ctx with gpu_device := { ctx.gpu_device with active_mem_type := some t } }
    let setup := OpsTestNet.Setup env s c DeviceType.GPU
    match OpsTestNet.Run env setup.2.1 setup.2.2.1 with
    | none => none
    | some (rst, s2, c2, ev2) =>
      if rst = MaceStatus.MACE_SUCCESS then
        match runOpGpuLoop env rest ctx1 s2 c2 with
        | none => none
        | some (st, ctx3, s3, c3, ev3) =>
          some (st, ctx3, s3, c3,
            Event.setMemType t :: (setup.2.2.2 ++ ev2 ++ ev3))
      else
        some (rst, ctx1, s2, c2, Event.setMemType t :: (setup.2.2.2 ++ ev2))

/-- OpsTestNet::RunOp(device) - on GPU, read the permitted memory-type
list once and run the per-layout loop; otherwise Setup (result
discarded) then Run. -/
def OpsTestNet.RunOp (env : Env) (ctx : OpTestContext) (s : OpsTestNet) (c : Counters)
    (device : DeviceType) :
    Option (MaceStatus × OpTestContext × OpsTestNet × Counters × List Event) :=
  if device = DeviceType.GPU then
    runOpGpuLoop env ctx.opencl_mem_types ctx s c
  else
    let setup := OpsTestNet.Setup env s c device
    match OpsTestNet.Run env setup.2.1 setup.2.2.1 with
    | none => none
    | some (rst, s2, c2, ev2) => some (rst, ctx, s2, c2, setup.2.2.2 ++ ev2)

/-- OpsTestNet::RunOp() - the no-argument overload: RunOp on CPU. -/
def OpsTestNet.RunOpDefault (env : Env) (ctx : OpTestContext) (s : OpsTestNet) (c : Counters) :
    Option (MaceStatus × OpTestContext × OpsTestNet × Counters × List Event) :=
  OpsTestNet.RunOp env ctx s c DeviceType.CPU

/-- OpsTestNet::RunNet - record the device kind, install the supplied
NetDef as the executor, preallocate, initialize, and run, surfacing the
first non-success status; no Sync on any path. -/
def OpsTestNet.RunNet (env : Env) (s : OpsTestNet) (c : Counters) (net_def : NetDef)
    (device : DeviceType) : MaceStatus × OpsTestNet × Counters × List Event :=
  let s1 : OpsTestNet := { s with device_type_ := some device, net_ := some net_def }
  let pst := env.prealloc c.p
  let c1 : Counters := { c with p := c.p + 1 }
  if pst = MaceStatus.MACE_SUCCESS then
    let ist := env.netInit c1.i
    let c2 : Counters := { c1 with i := c1.i + 1 }
    if ist = MaceStatus.MACE_SUCCESS then
      let rst := env.netRun c2.r
      let c3 : Counters := { c2 with r := c2.r + 1 }
      (rst, s1, c3, [Event.prealloc pst, Event.netInit ist, Event.netRun rst])
    else
      (ist, s1, c2, [Event.prealloc pst, Event.netInit ist])
  else
    (pst, s1, c1, [Event.prealloc pst])

/-- The memory types set as active GPU memory type along a trace. -/
def setEvents (ev : List Event) : List MemoryType :=
  ev.filterMap fun e =>
    match e with
    | Event.setMemType t => some t
    | _ => none

/-- The statuses of the executor-run invocations along a trace. -/
def runStatuses (ev : List Event) : List MaceStatus :=
  ev.filterMap fun e =>
    match e with
    | Event.netRun st => some st
    | _ => none

/-- The statuses of the executor-Init invocations along a trace. -/
def initStatuses (ev : List Event) : List MaceStatus :=
  ev.filterMap fun e =>
    match e with
    | Event.netInit st => some st
    | _ => none

/-- The statuses of the preallocation calls along a trace. -/
def preallocStatuses (ev : List Event) : List MaceStatus :=
  ev.filterMap fun e =>
    match e with
    | Event.prealloc st => some st
    | _ => none

/-- The output_info entry Setup builds at output index i of one
operator (the loop body formula). -/
def outputInfoAt (op : OperatorDef) (i : Nat) : OutputInfo :=
  { name := op.output.getD i ""
    data_type :=
      if op.output_type.length = op.output.length then op.output_type.getD i DataType.DT_INVALID
      else DataType.DT_FLOAT }

/-- Spec-side reading of the per-operator output_info list: the
declared output type at the matching position when the declared-type
count equals the output count, else DT_FLOAT for every output. -/
def specOutputInfosOf (op : OperatorDef) : List OutputInfo :=
  if op.output_type.length = op.output.length then
    List.zipWith (fun n t => { name := n, data_type := t }) op.output op.output_type
  else
    op.output.map fun n => { name := n, data_type := DataType.DT_FLOAT }

/-- Spec-side reading of the whole pass: per-operator output_info
lists, concatenated in operator order. -/
def specOutputInfos (op_defs : List OperatorDef) : List OutputInfo :=
  op_defs.flatMap specOutputInfosOf

/-- Every tensor name declared as an operator output in the
accumulated definitions. -/
def allOutputNames (op_defs : List OperatorDef) : List String :=
  op_defs.flatMap fun op => op.output

/-- An environment in which every preallocation call fails and every
executor Init and Run succeeds. -/
def envPreallocFail : Env :=
  { prealloc := fun _ => MaceStatus.MACE_OUT_OF_RESOURCES
    netInit := fun _ => MaceStatus.MACE_SUCCESS
    netRun := fun _ => MaceStatus.MACE_SUCCESS }

/-- An environment in which every collaborator call succeeds. -/
def envAllOk : Env :=
  { prealloc := fun _ => MaceStatus.MACE_SUCCESS
    netInit := fun _ => MaceStatus.MACE_SUCCESS
    netRun := fun _ => MaceStatus.MACE_SUCCESS }

/-- A harness state with an executor installed and GPU recorded as the
last device kind, as left by a successful Setup(GPU). -/
def sGpuReady : OpsTestNet :=
  { net_ := some {}, device_type_ := some DeviceType.GPU }

/-- A one-operator definition with output tensor name given. -/
def opWithOutput (out : String) : OperatorDef :=
  { type := "AddN", name := "addn", input := ["a", "b"], output := [out] }

/-- A harness state whose workspace already holds a tensor named c
from a prior pass, while c is also an operator output. -/
def sStaleOutput : OpsTestNet :=
  { ws_ := [("c", { shape := [3], is_weight := false })]
    op_defs_ := [opWithOutput "c"] }

/-! Lemmas about the builder. -/

lemma foldl_applyCall_op_def (cs : List BuilderCall) :
    ∀ b : OpDefBuilder,
      (cs.foldl applyCall b).op_def_ =
        { type := b.op_def_.type
          name := b.op_def_.name
          input := b.op_def_.input ++ specInputs cs
          output := b.op_def_.output ++ specOutputs cs
          output_type := b.op_def_.output_type ++ specOutputTypes cs
          output_shape := b.op_def_.output_shape ++ specOutputShapes cs
          arg := b.op_def_.arg ++ specArgs cs } := by
  induction cs with
  | nil =>
    intro b
    simp [specInputs, specOutputs, specOutputTypes, specOutputShapes, specArgs]
  | cons c cs ih =>
    intro b
    cases c <;>
      simp [applyCall, OpDefBuilder.Input, OpDefBuilder.Output, OpDefBuilder.OutputType,
        OpDefBuilder.OutputShape, OpDefBuilder.AddIntArg, OpDefBuilder.AddFloatArg,
        OpDefBuilder.AddStringArg, OpDefBuilder.AddIntsArg, OpDefBuilder.AddFloatsArg,
        ih, specInputs, specOutputs, specOutputTypes, specOutputShapes, specArgs]

/-- C5: for every sequence of builder calls, Finalize into a non-null
destination writes a definition whose type, name, input order, output
order, declared output types and shapes, and attribute list (in call
order, duplicates kept, no overwrite) exactly match the call
sequence. -/
theorem finalize_matches_call_sequence (t n : String) (cs : List BuilderCall)
    (dest : OperatorDef) :
    (buildFromCalls t n cs).Finalize (some dest) =
      FinalizeResult.ok
        { type := t
          name := n
          input := specInputs cs
          output := specOutputs cs
          output_type := specOutputTypes cs
          output_shape := specOutputShapes cs
          arg := specArgs cs } := by
  simp [OpDefBuilder.Finalize, buildFromCalls, foldl_applyCall_op_def, mkOpDefBuilder]

/-- C8: Finalize with a null destination aborts with the fatal
null-destination check, writing no definition (the fatal result carries
none); with any non-null destination it never aborts and writes the
accumulated definition. -/
theorem finalize_null_aborts (b : OpDefBuilder) :
    b.Finalize none = FinalizeResult.fatal "input should not be null." ∧
      ∀ d : OperatorDef, b.Finalize (some d) = FinalizeResult.ok b.op_def_ :=
  ⟨rfl, fun _ => rfl⟩

/-- C9: two Get calls in one process, the second with arbitrary other
parameters, return the same registry instance, hence the same CPU and
GPU devices, constructed once from the first call parameters. -/
theorem device_context_singleton (p1 p2 : Option String) (n1 n2 : Int)
    (a1 a2 : CPUAffinityPolicy) (g1 g2 : Bool) :
    (OpTestContext.Get (OpTestContext.Get {} p1 n1 a1 g1).2 p2 n2 a2 g2).1 =
        (OpTestContext.Get {} p1 n1 a1 g1).1 ∧
    (OpTestContext.Get (OpTestContext.Get {} p1 n1 a1 g1).2 p2 n2 a2 g2).1.GetDevice
        DeviceType.CPU = (OpTestContext.Get {} p1 n1 a1 g1).1.GetDevice DeviceType.CPU ∧
    (OpTestContext.Get (OpTestContext.Get {} p1 n1 a1 g1).2 p2 n2 a2 g2).1.GetDevice
        DeviceType.GPU = (OpTestContext.Get {} p1 n1 a1 g1).1.GetDevice DeviceType.GPU ∧
    (OpTestContext.Get {} p1 n1 a1 g1).1.cpu_device =
        { num_threads := n1, cpu_affinity_policy := a1, use_gemmlowp := g1 } ∧
    (OpTestContext.Get {} p1 n1 a1 g1).1.gpu_device =
        { context := { storage_path := GetStoragePathFromEnv p1 }
          priority := GPUPriorityHint.PRIORITY_NORMAL
          active_mem_type := none } := by
  refine ⟨rfl, rfl, rfl, rfl, rfl⟩

/-! List-level helper lemmas for the indexed output loop. -/

lemma map_range_getD {α : Type} (l : List α) (d : α) :
    (List.range l.length).map (fun i => l.getD i d) = l := by
  induction l with
  | nil => simp
  | cons a xs ih =>
    rw [List.length_cons, List.range_succ_eq_map]
    simp only [List.getD_eq_getElem?_getD] at ih
    simp [List.map_map, Function.comp_def, ih]

lemma map_range_getD_zipWith {α β γ : Type} (f : α → β → γ) (d1 : α) (d2 : β) :
    ∀ (l1 : List α) (l2 : List β), l1.length = l2.length →
      (List.range l1.length).map (fun i => f (l1.getD i d1) (l2.getD i d2)) =
        List.zipWith f l1 l2 := by
  intro l1
  induction l1 with
  | nil => intro l2 h; simp
  | cons a xs ih =>
    intro l2 h
    cases l2 with
    | nil => simp at h
    | cons b ys =>
      simp only [List.length_cons, Nat.succ.injEq] at h
      rw [List.length_cons, List.range_succ_eq_map]
      have ih2 := ih ys h
      simp only [List.getD_eq_getElem?_getD] at ih2
      simp [List.map_map, Function.comp_def, ih2]

/-! The output loop of Setup, characterized. -/

lemma outputStep_eq (op : OperatorDef) (acc : Workspace × List OutputInfo) (i : Nat) :
    outputStep op acc i =
      (acc.1.RemoveTensor (op.output.getD i ""), acc.2 ++ [outputInfoAt op i]) := rfl

lemma range_foldl_outputStep (op : OperatorDef) (n : Nat) :
    ∀ (ws : Workspace) (acc : List OutputInfo),
      (List.range n).foldl (outputStep op) (ws, acc) =
        (((List.range n).map (fun i => op.output.getD i "")).foldl Workspace.RemoveTensor ws,
          acc ++ (List.range n).map (outputInfoAt op)) := by
  induction n with
  | zero => intro ws acc; simp
  | succ m ih =>
    intro ws acc
    rw [List.range_succ, List.foldl_append, List.map_append, List.foldl_append,
      List.map_append, ih]
    simp [outputStep_eq]

lemma map_range_outputInfoAt (op : OperatorDef) :
    (List.range op.output.length).map (outputInfoAt op) = specOutputInfosOf op := by
  unfold specOutputInfosOf
  by_cases h : op.output_type.length = op.output.length
  · rw [if_pos h]
    have heq : outputInfoAt op = fun i =>
        ({ name := op.output.getD i ""
           data_type := op.output_type.getD i DataType.DT_INVALID } : OutputInfo) := by
      funext i; simp [outputInfoAt, h]
    rw [heq, ← map_range_getD_zipWith
      (fun nm t => ({ name := nm, data_type := t } : OutputInfo)) "" DataType.DT_INVALID
      op.output op.output_type h.symm]
  · rw [if_neg h]
    have heq : outputInfoAt op = fun i =>
        ({ name := op.output.getD i "", data_type := DataType.DT_FLOAT } : OutputInfo) := by
      funext i; simp [outputInfoAt, h]
    rw [heq]
    conv_rhs => rw [← map_range_getD op.output ""]
    rw [List.map_map]
    rfl

lemma processOutputs_eq (op : OperatorDef) (ws : Workspace) :
    processOutputs op ws =
      (op.output.foldl Workspace.RemoveTensor ws, specOutputInfosOf op) := by
  unfold processOutputs
  rw [range_foldl_outputStep, map_range_getD, map_range_outputInfoAt]
  simp

lemma setupStep_eq (acc : NetDef × Workspace) (op : OperatorDef) :
    setupStep acc op =
      ({ op := acc.1.op ++ [op]
         input_info := acc.1.input_info ++ inputInfosOf acc.2 op
         output_info := acc.1.output_info ++ specOutputInfosOf op },
        op.output.foldl Workspace.RemoveTensor acc.2) := by
  unfold setupStep
  rw [processOutputs_eq]

lemma buildNetDef_output_info (op_defs : List OperatorDef) :
    ∀ (nd : NetDef) (ws : Workspace),
      (op_defs.foldl setupStep (nd, ws)).1.output_info =
        nd.output_info ++ specOutputInfos op_defs := by
  induction op_defs with
  | nil => intro nd ws; simp [specOutputInfos]
  | cons op ops ih =>
    intro nd ws
    rw [List.foldl_cons, setupStep_eq, ih]
    simp [specOutputInfos]

/-! Workspace removal lemmas. -/

lemma getTensor_cons_ne (p : String × Tensor) (ws : Workspace) (nm : String)
    (hp : p.1 ≠ nm) : Workspace.GetTensor (p :: ws) nm = ws.GetTensor nm := by
  simp [Workspace.GetTensor, List.find?_cons, hp]

lemma removeTensor_cons (p : String × Tensor) (ws : Workspace) (m : String) :
    Workspace.RemoveTensor (p :: ws) m =
      if p.1 = m then ws.RemoveTensor m else p :: ws.RemoveTensor m := by
  by_cases h : p.1 = m <;> simp [Workspace.RemoveTensor, List.filter_cons, h]

lemma getTensor_removeTensor_self (ws : Workspace) (nm : String) :
    (ws.RemoveTensor nm).GetTensor nm = none := by
  induction ws with
  | nil => rfl
  | cons p ws ih =>
    rw [removeTensor_cons]
    by_cases h : p.1 = nm
    · rwa [if_pos h]
    · rw [if_neg h, getTensor_cons_ne p _ nm h]
      exact ih

lemma getTensor_removeTensor_none (ws : Workspace) (nm m : String) :
    ws.GetTensor nm = none → (ws.RemoveTensor m).GetTensor nm = none := by
  induction ws with
  | nil => intro _; rfl
  | cons p ws ih =>
    intro h
    by_cases hp : p.1 = nm
    · exfalso
      simp [Workspace.GetTensor, List.find?_cons, hp] at h
    · rw [getTensor_cons_ne p ws nm hp] at h
      rw [removeTensor_cons]
      by_cases hm : p.1 = m
      · rw [if_pos hm]
        exact ih h
      · rw [if_neg hm, getTensor_cons_ne p _ nm hp]
        exact ih h

lemma foldl_removeTensor_none (l : List String) :
    ∀ (ws : Workspace) (nm : String), ws.GetTensor nm = none →
      (l.foldl Workspace.RemoveTensor ws).GetTensor nm = none := by
  induction l with
  | nil => intro ws nm h; simpa using h
  | cons x l ih =>
    intro ws nm h
    exact ih (ws.RemoveTensor x) nm (getTensor_removeTensor_none ws nm x h)

lemma foldl_removeTensor_mem (l : List String) :
    ∀ (ws : Workspace) (nm : String), nm ∈ l →
      (l.foldl Workspace.RemoveTensor ws).GetTensor nm = none := by
  induction l with
  | nil => intro ws nm h; cases h
  | cons x l ih =>
    intro ws nm h
    rcases List.mem_cons.mp h with h1 | h1
    · subst h1
      exact foldl_removeTensor_none l (ws.RemoveTensor nm) nm
        (getTensor_removeTensor_self ws nm)
    · exact ih (ws.RemoveTensor x) nm h1

lemma buildNetDef_ws_none (op_defs : List OperatorDef) :
    ∀ (nd : NetDef) (ws : Workspace) (nm : String), ws.GetTensor nm = none →
      ((op_defs.foldl setupStep (nd, ws)).2).GetTensor nm = none := by
  induction op_defs with
  | nil => intro nd ws nm h; simpa using h
  | cons op ops ih =>
    intro nd ws nm h
    rw [List.foldl_cons, setupStep_eq]
    exact ih _ _ nm (foldl_removeTensor_none op.output ws nm h)

lemma buildNetDef_ws_removed (op_defs : List OperatorDef) :
    ∀ (nd : NetDef) (ws : Workspace) (nm : String), nm ∈ allOutputNames op_defs →
      ((op_defs.foldl setupStep (nd, ws)).2).GetTensor nm = none := by
  induction op_defs with
  | nil => intro nd ws nm h; simp [allOutputNames] at h
  | cons op ops ih =>
    intro nd ws nm h
    rw [List.foldl_cons, setupStep_eq]
    rcases List.mem_append.mp
        (by simpa only [allOutputNames, List.flatMap_cons] using h) with h1 | h1
    · exact buildNetDef_ws_none ops _ _ nm (foldl_removeTensor_mem op.output ws nm h1)
    · exact ih _ _ nm (by simpa only [allOutputNames] using h1)

/-! State-level characterization of Setup. -/

lemma setup_parts (env : Env) (s : OpsTestNet) (c : Counters) (d : DeviceType) :
    (OpsTestNet.Setup env s c d).2.1.net_ = some (buildNetDef s.op_defs_ s.ws_).1 ∧
    (OpsTestNet.Setup env s c d).2.1.ws_ = (buildNetDef s.op_defs_ s.ws_).2 ∧
    (OpsTestNet.Setup env s c d).2.2.1.r = c.r ∧
    setEvents (OpsTestNet.Setup env s c d).2.2.2 = [] ∧
    runStatuses (OpsTestNet.Setup env s c d).2.2.2 = [] ∧
    preallocStatuses (OpsTestNet.Setup env s c d).2.2.2 = [env.prealloc c.p] := by
  by_cases h : env.prealloc c.p = MaceStatus.MACE_SUCCESS <;>
    simp [OpsTestNet.Setup, h, setEvents, runStatuses, preallocStatuses]

/-- C6: in every Setup pass, the built NetDef records, for each
operator, output_info entries whose data type is the declared output
type at the matching position when the declared-type count equals the
output count, and DT_FLOAT for every output of that operator
otherwise. -/
theorem setup_output_info_types (env : Env) (s : OpsTestNet) (c : Counters) (d : DeviceType) :
    ∃ nd : NetDef, (OpsTestNet.Setup env s c d).2.1.net_ = some nd ∧
      nd.output_info = specOutputInfos s.op_defs_ := by
  refine ⟨(buildNetDef s.op_defs_ s.ws_).1, (setup_parts env s c d).1, ?_⟩
  have := buildNetDef_output_info s.op_defs_ {} s.ws_
  simpa [buildNetDef] using this

/-- C7: after every Setup pass, every tensor name declared as an
operator output in the accumulated definitions is absent from the
workspace, whatever tensor previously existed under that name. -/
theorem setup_removes_output_tensors (env : Env) (s : OpsTestNet) (c : Counters)
    (d : DeviceType) (nm : String) (h : nm ∈ allOutputNames s.op_defs_) :
    ((OpsTestNet.Setup env s c d).2.1.ws_).GetTensor nm = none := by
  rw [(setup_parts env s c d).2.1]
  exact buildNetDef_ws_removed s.op_defs_ {} s.ws_ nm h

/-- Witness for C7 at a concrete input: one AddN operator with output
c, a stale workspace tensor named c; after Setup the name is gone. -/
theorem setup_removes_output_tensors_witness :
    ((OpsTestNet.Setup envAllOk sStaleOutput {} DeviceType.CPU).2.1.ws_).GetTensor "c" =
      none :=
  setup_removes_output_tensors envAllOk sStaleOutput {} DeviceType.CPU "c" (by decide)

/-- C3: Setup succeeds exactly when preallocation and executor Init
both succeed; and Init is invoked exactly when preallocation succeeded
(so a preallocation failure aborts Setup without initializing the
executor, and an Init failure likewise makes Setup return false). -/
theorem setup_failure_propagation (env : Env) (s : OpsTestNet) (c : Counters)
    (d : DeviceType) :
    ((OpsTestNet.Setup env s c d).1 = true ↔
      (env.prealloc c.p = MaceStatus.MACE_SUCCESS ∧
        env.netInit c.i = MaceStatus.MACE_SUCCESS)) ∧
    initStatuses (OpsTestNet.Setup env s c d).2.2.2 =
      (if env.prealloc c.p = MaceStatus.MACE_SUCCESS then [env.netInit c.i] else []) := by
  by_cases h : env.prealloc c.p = MaceStatus.MACE_SUCCESS <;>
    simp [OpsTestNet.Setup, h, initStatuses]

/-! State-level characterization of Run and Sync. -/

lemma sync_events (s : OpsTestNet) :
    setEvents s.Sync = [] ∧ runStatuses s.Sync = [] ∧ preallocStatuses s.Sync = [] ∧
      initStatuses s.Sync = [] := by
  unfold OpsTestNet.Sync
  split <;> simp [setEvents, runStatuses, preallocStatuses, initStatuses]

lemma run_char (env : Env) (s : OpsTestNet) (c : Counters) (h : s.net_.isSome = true) :
    OpsTestNet.Run env s c =
      some (env.netRun c.r, s, { c with r := c.r + 1 },
        Event.netRun (env.netRun c.r) ::
          (if env.netRun c.r = MaceStatus.MACE_SUCCESS then s.Sync else [])) := by
  obtain ⟨nd, hnd⟩ := Option.isSome_iff_exists.mp h
  by_cases hr : env.netRun c.r = MaceStatus.MACE_SUCCESS <;>
    simp [OpsTestNet.Run, hnd, hr]

/-! Distribution lemmas for the trace extractors. -/

lemma setEvents_nil : setEvents [] = [] := rfl

lemma setEvents_append (a b : List Event) :
    setEvents (a ++ b) = setEvents a ++ setEvents b := by
  simp [setEvents]

lemma setEvents_cons (e : Event) (l : List Event) :
    setEvents (e :: l) =
      (match e with | Event.setMemType t => [t] | _ => []) ++ setEvents l := by
  cases e <;> simp [setEvents]

lemma runStatuses_nil : runStatuses [] = [] := rfl

lemma runStatuses_append (a b : List Event) :
    runStatuses (a ++ b) = runStatuses a ++ runStatuses b := by
  simp [runStatuses]

lemma runStatuses_cons (e : Event) (l : List Event) :
    runStatuses (e :: l) =
      (match e with | Event.netRun st => [st] | _ => []) ++ runStatuses l := by
  cases e <;> simp [runStatuses]

lemma preallocStatuses_nil : preallocStatuses [] = [] := rfl

lemma preallocStatuses_append (a b : List Event) :
    preallocStatuses (a ++ b) = preallocStatuses a ++ preallocStatuses b := by
  simp [preallocStatuses]

lemma preallocStatuses_cons (e : Event) (l : List Event) :
    preallocStatuses (e :: l) =
      (match e with | Event.prealloc st => [st] | _ => []) ++ preallocStatuses l := by
  cases e <;> simp [preallocStatuses]

lemma initStatuses_nil : initStatuses [] = [] := rfl

lemma initStatuses_append (a b : List Event) :
    initStatuses (a ++ b) = initStatuses a ++ initStatuses b := by
  simp [initStatuses]

lemma initStatuses_cons (e : Event) (l : List Event) :
    initStatuses (e :: l) =
      (match e with | Event.netInit st => [st] | _ => []) ++ initStatuses l := by
  cases e <;> simp [initStatuses]

/-! Step equations for the GPU per-layout loop of RunOp. -/

lemma runOpGpuLoop_cons_fail (env : Env) (t : MemoryType) (rest : List MemoryType)
    (ctx : OpTestContext) (s : OpsTestNet) (c : Counters)
    (hr : env.netRun (OpsTestNet.Setup env s c DeviceType.GPU).2.2.1.r ≠
      MaceStatus.MACE_SUCCESS) :
    runOpGpuLoop env (t :: rest) ctx s c =
      some (env.netRun (OpsTestNet.Setup env s c DeviceType.GPU).2.2.1.r,
        { ctx with gpu_device := { ctx.gpu_device with active_mem_type := some t } },
        (OpsTestNet.Setup env s c DeviceType.GPU).2.1,
        { (OpsTestNet.Setup env s c DeviceType.GPU).2.2.1 with
            r := (OpsTestNet.Setup env s c DeviceType.GPU).2.2.1.r + 1 },
        Event.setMemType t :: ((OpsTestNet.Setup env s c DeviceType.GPU).2.2.2 ++
          [Event.netRun (env.netRun (OpsTestNet.Setup env s c DeviceType.GPU).2.2.1.r)])) := by
  have hnet : (OpsTestNet.Setup env s c DeviceType.GPU).2.1.net_.isSome = true := by
    rw [(setup_parts env s c DeviceType.GPU).1]; rfl
  have hrun := run_char env (OpsTestNet.Setup env s c DeviceType.GPU).2.1
    (OpsTestNet.Setup env s c DeviceType.GPU).2.2.1 hnet
  simp only [runOpGpuLoop]
  rw [hrun]
  simp [hr]

lemma runOpGpuLoop_cons_ok (env : Env) (t : MemoryType) (rest : List MemoryType)
    (ctx : OpTestContext) (s : OpsTestNet) (c : Counters)
    (hr : env.netRun (OpsTestNet.Setup env s c DeviceType.GPU).2.2.1.r =
      MaceStatus.MACE_SUCCESS) :
    runOpGpuLoop env (t :: rest) ctx s c =
      (runOpGpuLoop env rest
          { ctx with gpu_device := { ctx.gpu_device with active_mem_type := some t } }
          (OpsTestNet.Setup env s c DeviceType.GPU).2.1
          { (OpsTestNet.Setup env s c DeviceType.GPU).2.2.1 with
              r := (OpsTestNet.Setup env s c DeviceType.GPU).2.2.1.r + 1 }).map
        fun o =>
          (o.1, o.2.1, o.2.2.1, o.2.2.2.1,
            Event.setMemType t :: ((OpsTestNet.Setup env s c DeviceType.GPU).2.2.2 ++
              ((Event.netRun MaceStatus.MACE_SUCCESS ::
                (OpsTestNet.Setup env s c DeviceType.GPU).2.1.Sync) ++ o.2.2.2.2))) := by
  have hnet : (OpsTestNet.Setup env s c DeviceType.GPU).2.1.net_.isSome = true := by
    rw [(setup_parts env s c DeviceType.GPU).1]; rfl
  have hrun := run_char env (OpsTestNet.Setup env s c DeviceType.GPU).2.1
    (OpsTestNet.Setup env s c DeviceType.GPU).2.2.1 hnet
  simp only [runOpGpuLoop]
  rw [hrun]
  simp only [hr, if_pos rfl]
  cases runOpGpuLoop env rest
      { ctx with gpu_device := { ctx.gpu_device with active_mem_type := some t } }
      (OpsTestNet.Setup env s c DeviceType.GPU).2.1
      { (OpsTestNet.Setup env s c DeviceType.GPU).2.2.1 with
          r := (OpsTestNet.Setup env s c DeviceType.GPU).2.2.1.r + 1 } with
  | none => rfl
  | some out => simp

/-- Per-cycle characterization of the GPU loop: there is some number n
of attempted cycles, bounded by the layout count; the layouts set
active are exactly the first n permitted ones in order; each attempted
cycle ran one preallocation (Setup) and one executor run; every
attempted run but the last succeeded; and the result is success with
all layouts covered, or the first failing run status. -/
lemma runOpGpuLoop_char (env : Env) (mem : List MemoryType) :
    ∀ (ctx : OpTestContext) (s : OpsTestNet) (c : Counters),
      ∃ st ctx2 s2 c2 ev,
        runOpGpuLoop env mem ctx s c = some (st, ctx2, s2, c2, ev) ∧
        ∃ n, n ≤ mem.length ∧
          setEvents ev = mem.take n ∧
          (runStatuses ev).length = n ∧
          (preallocStatuses ev).length = n ∧
          (∀ x ∈ (runStatuses ev).dropLast, x = MaceStatus.MACE_SUCCESS) ∧
          ((st = MaceStatus.MACE_SUCCESS ∧ n = mem.length ∧
              ∀ x ∈ runStatuses ev, x = MaceStatus.MACE_SUCCESS) ∨
            (st ≠ MaceStatus.MACE_SUCCESS ∧ (runStatuses ev).getLast? = some st)) := by
  induction mem with
  | nil =>
    intro ctx s c
    refine ⟨MaceStatus.MACE_SUCCESS, ctx, s, c, [], rfl, 0, ?_⟩
    refine ⟨Nat.le_refl 0, by simp [setEvents], by simp [runStatuses],
      by simp [preallocStatuses], by simp [runStatuses], Or.inl ⟨rfl, rfl, ?_⟩⟩
    simp [runStatuses]
  | cons t rest ih =>
    intro ctx s c
    have hparts := setup_parts env s c DeviceType.GPU
    by_cases hr : env.netRun (OpsTestNet.Setup env s c DeviceType.GPU).2.2.1.r =
        MaceStatus.MACE_SUCCESS
    · obtain ⟨st3, ctx3, s3, c3, ev3, hloop, n3, hn3, hset3, hrlen3, hplen3, hdrop3, hdisj3⟩ :=
        ih { ctx with gpu_device := { ctx.gpu_device with active_mem_type := some t } }
          (OpsTestNet.Setup env s c DeviceType.GPU).2.1
          { (OpsTestNet.Setup env s c DeviceType.GPU).2.2.1 with
              r := (OpsTestNet.Setup env s c DeviceType.GPU).2.2.1.r + 1 }
      rw [runOpGpuLoop_cons_ok env t rest ctx s c hr, hloop]
      have hruns : runStatuses (Event.setMemType t ::
            ((OpsTestNet.Setup env s c DeviceType.GPU).2.2.2 ++
              ((Event.netRun MaceStatus.MACE_SUCCESS ::
                (OpsTestNet.Setup env s c DeviceType.GPU).2.1.Sync) ++ ev3))) =
          MaceStatus.MACE_SUCCESS :: runStatuses ev3 := by
        simp [runStatuses_cons, runStatuses_append, runStatuses_nil, hparts.2.2.2.2.1,
          (sync_events _).2.1]
      refine ⟨st3, _, _, _, _, rfl, n3 + 1, by simpa using hn3, ?_, ?_, ?_, ?_, ?_⟩
      · simp [setEvents_cons, setEvents_append, hparts.2.2.2.1, (sync_events _).1, hset3]
      · rw [hruns]
        simpa using hrlen3
      · simp [preallocStatuses_cons, preallocStatuses_append, hparts.2.2.2.2.2,
          (sync_events _).2.2.1, hplen3]
      · intro x hx
        rw [hruns] at hx
        cases hev3 : runStatuses ev3 with
        | nil => rw [hev3] at hx; simp at hx
        | cons y ys =>
          rw [hev3, List.dropLast_cons₂, List.mem_cons] at hx
          rcases hx with hx | hx
          · exact hx
          · exact hdrop3 x (by rw [hev3]; exact hx)
      · rcases hdisj3 with ⟨hst3, hn3len, hall3⟩ | ⟨hst3, hlast3⟩
        · refine Or.inl ⟨hst3, by simp [hn3len], ?_⟩
          intro x hx
          rw [hruns, List.mem_cons] at hx
          rcases hx with hx | hx
          · exact hx
          · exact hall3 x hx
        · refine Or.inr ⟨hst3, ?_⟩
          rw [hruns]
          cases hev3 : runStatuses ev3 with
          | nil => rw [hev3] at hlast3; simp at hlast3
          | cons y ys =>
            rw [hev3] at hlast3
            rw [List.getLast?_cons_cons]
            exact hlast3
    · rw [runOpGpuLoop_cons_fail env t rest ctx s c hr]
      have hruns : runStatuses (Event.setMemType t ::
            ((OpsTestNet.Setup env s c DeviceType.GPU).2.2.2 ++
              [Event.netRun (env.netRun (OpsTestNet.Setup env s c DeviceType.GPU).2.2.1.r)])) =
          [env.netRun (OpsTestNet.Setup env s c DeviceType.GPU).2.2.1.r] := by
        simp [runStatuses_cons, runStatuses_append, runStatuses_nil, hparts.2.2.2.2.1]
      refine ⟨_, _, _, _, _, rfl, 1, by simp, ?_, ?_, ?_, ?_, ?_⟩
      · simp [setEvents_cons, setEvents_append, setEvents_nil, hparts.2.2.2.1]
      · rw [hruns]; rfl
      · simp [preallocStatuses_cons, preallocStatuses_append, preallocStatuses_nil,
          hparts.2.2.2.2.2]
      · intro x hx
        rw [hruns] at hx
        simp at hx
      · refine Or.inr ⟨hr, ?_⟩
        rw [hruns]
        rfl

/-- C2: RunOp on GPU performs one full cycle (set active layout, Setup,
Run) per permitted layout in order: the layouts activated are a prefix
of the permitted list, with one preallocation (Setup) and one executor
run per attempted cycle; it stops at the first cycle whose run fails,
returning that status with later layouts unattempted, and returns
success exactly when every permitted layout was attempted and every run
succeeded. -/
theorem runOp_gpu_layout_coverage (env : Env) (ctx : OpTestContext) (s : OpsTestNet)
    (c : Counters) :
    ∃ st ctx2 s2 c2 ev,
      OpsTestNet.RunOp env ctx s c DeviceType.GPU = some (st, ctx2, s2, c2, ev) ∧
      ∃ n, n ≤ ctx.opencl_mem_types.length ∧
        setEvents ev = ctx.opencl_mem_types.take n ∧
        (runStatuses ev).length = n ∧
        (preallocStatuses ev).length = n ∧
        (∀ x ∈ (runStatuses ev).dropLast, x = MaceStatus.MACE_SUCCESS) ∧
        ((st = MaceStatus.MACE_SUCCESS ∧ n = ctx.opencl_mem_types.length ∧
            ∀ x ∈ runStatuses ev, x = MaceStatus.MACE_SUCCESS) ∨
          (st ≠ MaceStatus.MACE_SUCCESS ∧ (runStatuses ev).getLast? = some st)) := by
  have h := runOpGpuLoop_char env ctx.opencl_mem_types ctx s c
  simpa [OpsTestNet.RunOp] using h

/-- Witness for C2 at a concrete input: with an all-success environment
and a default registry state, RunOp(GPU) completes without a fatal. -/
theorem runOp_gpu_layout_coverage_witness :
    ∃ out, OpsTestNet.RunOp envAllOk {} {} {} DeviceType.GPU = some out := by
  obtain ⟨st, ctx2, s2, c2, ev, h, _⟩ := runOp_gpu_layout_coverage envAllOk {} {} {}
  exact ⟨(st, ctx2, s2, c2, ev), h⟩

/-- C1 counterexample: with every preallocation failing, Setup(CPU)
returns false, yet RunOp(CPU) returns MACE_SUCCESS and the executor run
was invoked once - RunOp did not return a failure and did not skip the
run. -/
theorem runOp_failed_setup_counterexample :
    (OpsTestNet.Setup envPreallocFail {} {} DeviceType.CPU).1 = false ∧
    (OpsTestNet.RunOp envPreallocFail {} {} {} DeviceType.CPU).map
        (fun o => (o.1, runStatuses o.2.2.2.2)) =
      some (MaceStatus.MACE_SUCCESS, [MaceStatus.MACE_SUCCESS]) :=
  ⟨rfl, rfl⟩

/-- C1 amended: RunOp discards the Setup result. On CPU, RunOp always
invokes the executor run exactly once (after exactly one preallocation
attempt, whatever its status) and returns the run status alone; on GPU,
every attempted layout cycle invokes the executor run exactly once,
whether or not that cycle Setup succeeded. -/
theorem runOp_discards_setup_result (env : Env) (ctx : OpTestContext) (s : OpsTestNet)
    (c : Counters) :
    ((OpsTestNet.RunOp env ctx s c DeviceType.CPU).map
        (fun o => (o.1, runStatuses o.2.2.2.2, (preallocStatuses o.2.2.2.2).length)) =
      some (env.netRun c.r, [env.netRun c.r], 1)) ∧
    (∃ out, OpsTestNet.RunOp env ctx s c DeviceType.GPU = some out ∧
      (runStatuses out.2.2.2.2).length = (setEvents out.2.2.2.2).length) := by
  have hparts := setup_parts env s c DeviceType.CPU
  have hnet : (OpsTestNet.Setup env s c DeviceType.CPU).2.1.net_.isSome = true := by
    rw [hparts.1]; rfl
  have hrun := run_char env (OpsTestNet.Setup env s c DeviceType.CPU).2.1
    (OpsTestNet.Setup env s c DeviceType.CPU).2.2.1 hnet
  constructor
  · by_cases hr : env.netRun c.r = MaceStatus.MACE_SUCCESS <;>
      simp [OpsTestNet.RunOp, hrun, hparts.2.2.1, hr, runStatuses_cons, runStatuses_append,
        runStatuses_nil, hparts.2.2.2.2.1, (sync_events _).2.1, preallocStatuses_cons,
        preallocStatuses_append, preallocStatuses_nil, hparts.2.2.2.2.2,
        (sync_events _).2.2.1]
  · obtain ⟨st, ctx2, s2, c2, ev, hloop, n, hn, hset, hrlen, _, _, _⟩ :=
      runOpGpuLoop_char env ctx.opencl_mem_types ctx s c
    refine ⟨(st, ctx2, s2, c2, ev), ?_, ?_⟩
    · simpa [OpsTestNet.RunOp] using hloop
    · show (runStatuses ev).length = (setEvents ev).length
      rw [hrlen, hset, List.length_take]
      omega

/-- C4 counterexample: a RunNet call on GPU in which the executor run
succeeds returns MACE_SUCCESS, yet no command-queue finish
(synchronization) event appears in its trace. -/
theorem runNet_gpu_no_sync_counterexample :
    (OpsTestNet.RunNet envAllOk {} {} {} DeviceType.GPU).1 = MaceStatus.MACE_SUCCESS ∧
    Event.syncFinish ∉ (OpsTestNet.RunNet envAllOk {} {} {} DeviceType.GPU).2.2.2 :=
  ⟨rfl, by decide⟩

/-- C4 amended: after a successful Run while an executor exists and the
recorded device kind is GPU, the harness synchronizes (command-queue
finish) before returning - and RunOp reaches Run only through this
path - but RunNet never synchronizes, on any device and any outcome. -/
theorem run_syncs_gpu_runNet_does_not (env : Env) (s : OpsTestNet) (c : Counters) :
    (s.net_.isSome = true → s.device_type_ = some DeviceType.GPU →
      env.netRun c.r = MaceStatus.MACE_SUCCESS →
      OpsTestNet.Run env s c =
        some (MaceStatus.MACE_SUCCESS, s, { c with r := c.r + 1 },
          [Event.netRun MaceStatus.MACE_SUCCESS, Event.syncFinish])) ∧
    (∀ (nd : NetDef) (d : DeviceType),
      Event.syncFinish ∉ (OpsTestNet.RunNet env s c nd d).2.2.2) := by
  constructor
  · intro hnet hdev hr
    rw [run_char env s c hnet, hr]
    simp [OpsTestNet.Sync, hnet, hdev]
  · intro nd d
    by_cases hp : env.prealloc c.p = MaceStatus.MACE_SUCCESS <;>
      by_cases hi : env.netInit c.i = MaceStatus.MACE_SUCCESS <;>
        simp [OpsTestNet.RunNet, hp, hi]

/-- Witness for the C4 amended theorem at a concrete input: a GPU-ready
harness state with an all-success environment runs and synchronizes. -/
theorem run_syncs_gpu_witness :
    OpsTestNet.Run envAllOk sGpuReady {} =
      some (MaceStatus.MACE_SUCCESS, sGpuReady, { p := 0, i := 0, r := 1 },
        [Event.netRun MaceStatus.MACE_SUCCESS, Event.syncFinish]) :=
  (run_syncs_gpu_runNet_does_not envAllOk sGpuReady {}).1 (by decide) (by decide) rfl

/-- C10: before any memory-type policy setter is called the registry
permits exactly the one-element image-only list, so RunOp(GPU) against
a freshly constructed registry performs exactly one setup/run cycle,
activating the image layout. -/
theorem runOp_gpu_default_single_image_cycle (p : Option String) (nthreads : Int)
    (pol : CPUAffinityPolicy) (g : Bool) (env : Env) (s : OpsTestNet) (c : Counters) :
    (mkOpTestContext p nthreads pol g).opencl_mem_types = [MemoryType.GPU_IMAGE] ∧
    ∃ out, OpsTestNet.RunOp env (mkOpTestContext p nthreads pol g) s c DeviceType.GPU =
        some out ∧
      setEvents out.2.2.2.2 = [MemoryType.GPU_IMAGE] ∧
      (runStatuses out.2.2.2.2).length = 1 ∧
      (preallocStatuses out.2.2.2.2).length = 1 := by
  refine ⟨rfl, ?_⟩
  obtain ⟨st, ctx2, s2, c2, ev, hloop, n, hn, hset, hrlen, hplen, hdrop, hdisj⟩ :=
    runOpGpuLoop_char env (mkOpTestContext p nthreads pol g).opencl_mem_types
      (mkOpTestContext p nthreads pol g) s c
  have hmem : (mkOpTestContext p nthreads pol g).opencl_mem_types =
      [MemoryType.GPU_IMAGE] := rfl
  rw [hmem] at hloop hn hset hdisj
  have hn1 : n = 1 := by
    rcases hdisj with ⟨_, hlen, _⟩ | ⟨_, hlast⟩
    · simpa using hlen
    · by_contra hne
      have hn0 : n = 0 := by
        simp only [List.length_singleton] at hn
        omega
      rw [hn0] at hrlen
      have hnil : runStatuses ev = [] := List.length_eq_zero.mp hrlen
      rw [hnil] at hlast
      exact Option.noConfusion hlast
  refine ⟨(st, ctx2, s2, c2, ev), ?_, ?_, ?_, ?_⟩
  · simpa [OpsTestNet.RunOp, hmem] using hloop
  · show setEvents ev = [MemoryType.GPU_IMAGE]
    rw [hset, hn1]
    rfl
  · show (runStatuses ev).length = 1
    rw [hrlen, hn1]
  · show (preallocStatuses ev).length = 1
    rw [hplen, hn1]

end MaceTest
